import Mathlib

/-!
Shallow embedding of `src/modules/registry.js` (the `Registry` class and the
free function `checkForClashingFunctions`), together with theorems settling
the specification claims about it.

Modelling conventions:
* JavaScript values are the inductive `Value`.  `Value.vfun` is an opaque
  (non-constructor) function value; `Value.vctor` models a zero-argument
  class: instantiating it (`new C()`) yields a fresh object carrying the
  class's members, function-valued members standing for the methods visible
  through `prop in target` / `target[prop]`.
* The private `Map` field `#content` is an insertion-ordered association
  list `List (String × Value)`; `mapGet`/`mapHas`/`mapSet`/`mapDelete`
  implement `Map.get`/`has`/`set`/`delete`.
* Thrown exceptions are `JSError` values returned through `Except`.
  Mutating methods return `Except JSError Unit × Registry` so that the
  registry state at the moment an exception is thrown stays observable,
  exactly as it does for a thrown JS exception.
* `name.toString()` on `null`/`undefined` throws `TypeError`; on other
  values it is total (`jsToString`).  `toLowerCase` is modelled by
  `toLowerCaseJS`, ASCII folding as JS does on the ASCII range.
-/

set_option autoImplicit false

/-- JavaScript runtime values, with classes (`vctor`) and opaque functions
(`vfun`) separated so that `new`, `typeof f === "function"` and structured
cloning can be modelled. -/
inductive Value where
  | vnull
  | vundefined
  | vbool (b : Bool)
  | vnum (n : Int)
  | vstr (s : String)
  | vobj (fields : List (String × Value))
  | vfun (tag : Nat)
  | vctor (instFields : List (String × Value))
deriving Repr

/-- The exception classes thrown by `registry.js`: `TypeError` (from
`name.toString()` on a nullish receiver or a bad `new`/call), `SyntaxError`
(duplicate name in `add`, property clash in construction) and
`ReferenceError` (missing name in `get`/`rename`/`alias`). -/
inductive JSError where
  | typeError (msg : String)
  | syntaxError (msg : String)
  | referenceError (msg : String)
deriving Repr, DecidableEq

/-- JavaScript truthiness (`if (x)`).  `NaN` is not modelled; numbers are
integers with `0` falsy. -/
def truthy : Value → Bool
  | .vnull => false
  | .vundefined => false
  | .vbool b => b
  | .vnum n => n != 0
  | .vstr s => s != ""
  | .vobj _ => true
  | .vfun _ => true
  | .vctor _ => true

/-- The result of `typeof x === "function"`: true for functions and classes. -/
def isFunctionJS : Value → Bool
  | .vfun _ => true
  | .vctor _ => true
  | _ => false

/-- ASCII lower-casing of one character, as `String.prototype.toLowerCase`
acts on the ASCII range (`A`..`Z` are code points 65..90). -/
def lowerChar (c : Char) : Char :=
  if c.toNat ≥ 65 ∧ c.toNat ≤ 90 then Char.ofNat (c.toNat + 32) else c

/-- `s.toLowerCase()` restricted to the ASCII folding JS performs on the
ASCII range (registry keys are ASCII). -/
def toLowerCaseJS (s : String) : String := String.mk (s.data.map lowerChar)

/-- The stringification step `if (typeof name !== "string") name = name.toString();`.
Strings pass through; `null`/`undefined` make the member access throw
`TypeError`; other primitives and objects stringify totally (function and
class sources are abbreviated, no claim depends on their text). -/
def jsToString : Value → Except JSError String
  | .vnull => .error (.typeError ("Cannot read properties of null (reading \x27toString\x27)"))
  | .vundefined => .error (.typeError ("Cannot read properties of undefined (reading \x27toString\x27)"))
  | .vbool b => .ok (if b then ("true") else ("false"))
  | .vnum n => .ok (toString n)
  | .vstr s => .ok s
  | .vobj _ => .ok ("[object Object]")
  | .vfun _ => .ok ("function")
  | .vctor _ => .ok ("class")

/-- `Map.prototype.get`: first (only, keys are unique) binding of a key. -/
def mapGet : List (String × Value) → String → Option Value
  | [], _ => none
  | (k, v) :: rest, key => if k == key then some v else mapGet rest key

/-- `Map.prototype.has`. -/
def mapHas (m : List (String × Value)) (key : String) : Bool :=
  (mapGet m key).isSome

/-- `Map.prototype.set`: replace in place if the key is present, else append
(insertion order preserved). -/
def mapSet : List (String × Value) → String → Value → List (String × Value)
  | [], key, v => [(key, v)]
  | (k, w) :: rest, key, v =>
    if k == key then (key, v) :: rest else (k, w) :: mapSet rest key v

/-- `Map.prototype.delete` (keys are unique, so filtering removes exactly
the one binding). -/
def mapDelete (m : List (String × Value)) (key : String) : List (String × Value) :=
  m.filter (fun p => p.1 != key)

/-- The `Registry` class: its single private field `#content`. -/
structure Registry where
  content : List (String × Value)
deriving Repr

/-- A freshly constructed `new Registry()`. -/
def Registry.empty : Registry := ⟨[]⟩

/-- The `size` getter: `this.#content.size`. -/
def Registry.size (r : Registry) : Nat := r.content.length

/-- `this.has(k)` applied to a string `k` (the form used internally):
lower-cases and checks the map. -/
def Registry.hasKey (r : Registry) (s : String) : Bool :=
  mapHas r.content (toLowerCaseJS s)

/-- `has(name)`: stringify (may throw on nullish input), lower-case, check
the map. -/
def Registry.has (r : Registry) (name : Value) : Except JSError Bool :=
  match jsToString name with
  | .error e => .error e
  | .ok s => .ok (r.hasKey s)

/-- `get(name)`: stringify, lower-case, throw `ReferenceError` when
`this.has` misses, else return `this.#content.get(name)` (which is
`undefined` when absent, as `Map.get` is). -/
def Registry.get (r : Registry) (name : Value) : Except JSError Value :=
  match jsToString name with
  | .error e => .error e
  | .ok s =>
    let key := toLowerCaseJS s
    if !(r.hasKey key) then
      .error (.referenceError ("Item " ++ key ++ " does not exist in registry! Consider checking your spelling."))
    else
      .ok ((mapGet r.content key).getD .vundefined)

/-- `add(name, item)`: silent return on falsy `name`, silent return on falsy
`item`, stringify + lower-case, `SyntaxError` on a duplicate, else insert.
The `jsToString` error branch is unreachable (a truthy value is never
nullish) but kept to mirror the statement order. -/
def Registry.add (r : Registry) (name item : Value) : Except JSError Unit × Registry :=
  if !(truthy name) then (.ok (), r)
  else if !(truthy item) then (.ok (), r)
  else
    match jsToString name with
    | .error e => (.error e, r)
    | .ok s =>
      let key := toLowerCaseJS s
      if r.hasKey key then
        (.error (.syntaxError ("Item " ++ key ++ " already exists in registry! Consider using a different name.")), r)
      else
        (.ok (), ⟨mapSet r.content key item⟩)

/-- `rename(name, newName)`: stringify + lower-case `name`, `ReferenceError`
when absent, read the current entry with `this.get`, delete the old binding,
then `this.add(newName, current)` — whose own checks run on the already
mutated state. -/
def Registry.rename (r : Registry) (name newName : Value) : Except JSError Unit × Registry :=
  match jsToString name with
  | .error e => (.error e, r)
  | .ok s =>
    let key := toLowerCaseJS s
    if !(r.hasKey key) then
      (.error (.referenceError ("Item " ++ key ++ " does not exist in registry! Consider checking your spelling.")), r)
    else
      match r.get (.vstr key) with
      | .error e => (.error e, r)
      | .ok current =>
        let r2 : Registry := ⟨mapDelete r.content key⟩
        r2.add newName current

/-- `alias(name, as)`: stringify + lower-case `name`, `ReferenceError` when
absent, read the current entry, then `this.add(as, current)` — a new
ordinary entry sharing the same value (there is no separate alias table). -/
def Registry.alias (r : Registry) (name asName : Value) : Except JSError Unit × Registry :=
  match jsToString name with
  | .error e => (.error e, r)
  | .ok s =>
    let key := toLowerCaseJS s
    if !(r.hasKey key) then
      (.error (.referenceError ("Item " ++ key ++ " does not exist in registry! Consider checking your spelling.")), r)
    else
      match r.get (.vstr key) with
      | .error e => (.error e, r)
      | .ok current => r.add asName current

/-- Property read `x[p]` (absent or on a primitive: `undefined`; primitive
wrapper properties are not modelled, no claim touches them). -/
def getProp : Value → String → Value
  | .vobj fields, p => (mapGet fields p).getD .vundefined
  | _, _ => .vundefined

/-- Property test `p in x`. -/
def hasProp : Value → String → Bool
  | .vobj fields, p => mapHas fields p
  | _, _ => false

/- Structured-clone feasibility: `structuredClone` throws `DataCloneError`
on functions and classes, anywhere in the value. -/
mutual
/-- Whether `structuredClone` succeeds on this value. -/
def cloneable : Value → Bool
  | .vobj fields => cloneableFields fields
  | .vfun _ => false
  | .vctor _ => false
  | _ => true
/-- Whether `structuredClone` succeeds on every field value of an object. -/
def cloneableFields : List (String × Value) → Bool
  | [] => true
  | (_, v) :: rest => cloneable v && cloneableFields rest
end

/-- `structuredClone(v)`: a deep copy of a pure value is the value itself,
so success returns `v` unchanged; failure (non-cloneable content) is `none`. -/
def structuredCloneJS (v : Value) : Option Value :=
  if cloneable v then some v else none

/-- The loop body of `checkForClashingFunctions`: walk the source's own
enumerable properties in order; on the first property present on the target
with a function value, throw `SyntaxError`. -/
def checkClashList : List (String × Value) → Value → Except JSError Unit
  | [], _ => .ok ()
  | (p, _) :: rest, target =>
    if hasProp target p then
      if isFunctionJS (getProp target p) then
        .error (.syntaxError ("Property \x27" ++ p ++ "\x27 clashes with a class method!"))
      else checkClashList rest target
    else checkClashList rest target

/-- `checkForClashingFunctions(source, target)` from `registry.js`: `for in`
over a non-object source visits nothing. -/
def checkForClashingFunctions (source target : Value) : Except JSError Unit :=
  match source with
  | .vobj fields => checkClashList fields target
  | _ => .ok ()

/-- The type-resolution expression of `#construct`:
`object.type ? registry.get(object.type) : defaultType`. -/
def resolveType (object : Value) (registry : Registry) (defaultType : Value) : Except JSError Value :=
  if truthy (getProp object ("type")) then registry.get (getProp object ("type"))
  else .ok defaultType

/-- `new T()` on a resolved type value: a class yields a fresh instance
carrying the class's members; anything else throws `TypeError`. -/
def instantiateType : Value → Except JSError Value
  | .vctor fields => .ok (.vobj fields)
  | _ => .error (.typeError ("resolved type is not a constructor"))

/-- `Object.assign(target, source)` on field lists: set each own enumerable
property of the source, in order. -/
def objAssignFields (target : List (String × Value)) : List (String × Value) → List (String × Value)
  | [] => target
  | (k, v) :: rest => objAssignFields (mapSet target k v) rest

/-- `Object.assign(target, source)`; assigning a non-object source onto an
instance copies no named fields of interest here. -/
def objAssign (target source : Value) : Value :=
  match target, source with
  | .vobj tf, .vobj sf => .vobj (objAssignFields tf sf)
  | _, _ => target

/-- `Registry.#construct(object, registry, defaultType)`: falsy-object
guard (returns `undefined`, modelled as `none`), type resolution,
instantiation, clone with fallback to the original, clash check, merge,
then `instantiated.init ? instantiated.init() : {}` — a truthy non-function
`init` member throws `TypeError`; a real `init` callback runs for effect
only (its return is discarded; self-mutation through it is outside the pure
model, and no claim depends on it). -/
def constructImpl (object : Value) (registry : Registry) (defaultType : Value) : Except JSError (Option Value) :=
  if !(truthy object) then .ok none
  else
    match resolveType object registry defaultType with
    | .error e => .error e
    | .ok typeVal =>
      match instantiateType typeVal with
      | .error e => .error e
      | .ok instantiated =>
        let cloned :=
          match structuredCloneJS object with
          | some c => c
          | none => object
        match checkForClashingFunctions cloned instantiated with
        | .error e => .error e
        | .ok _ =>
          let merged := objAssign instantiated cloned
          let initMember := getProp merged ("init")
          if truthy initMember && !(isFunctionJS initMember) then
            .error (.typeError ("instantiated.init is not a function"))
          else .ok (some merged)

/-- `construct(object, defaultType)`: `this.#construct(object, this, defaultType)`. -/
def Registry.construct (r : Registry) (object : Value) (defaultType : Value) : Except JSError (Option Value) :=
  constructImpl object r defaultType

/-- `create(name, registry, defaultType)`: `this.#construct(this.get(name), registry, defaultType)`. -/
def Registry.create (r : Registry) (name : Value) (registry : Registry) (defaultType : Value) : Except JSError (Option Value) :=
  match r.get name with
  | .error e => .error e
  | .ok item => constructImpl item registry defaultType

/-- A canonical registry key in the sense of the spec's glossary: nonempty
and already lower-cased (ASCII keys are lower-case fixed points of
`toLowerCaseJS`). -/
def isCanonical (s : String) : Bool := (s != "") && (toLowerCaseJS s == s)

/-- Modelled from the spec: the claim C7 read-back-stamp predicate.  The
spec says `get` "stamps the canonical name onto the returned value" as a
read-back field whenever the value supports fields; this recognises a value
carrying some field whose content is that canonical name.  It exists only
to state the refutation; `registry.js` itself has no stamping code. -/
def stampedWithName (v : Value) (key : String) : Bool :=
  match v with
  | .vobj fields => fields.any (fun p =>
      match p.2 with
      | .vstr s => s == key
      | _ => false)
  | _ => false

/-- Sequential `add` of a batch of (name, value) pairs, stopping at the
first thrown error — how a loader installs a list of content. -/
def addList (r : Registry) : List (String × Value) → Except JSError Registry
  | [] => .ok r
  | (n, v) :: rest =>
    match r.add (.vstr n) v with
    | (.ok _, r2) => addList r2 rest
    | (.error e, _) => .error e

/-! Association-list laws for the `Map` model. -/

theorem mapGet_set_self (m : List (String × Value)) (key : String) (v : Value) :
    mapGet (mapSet m key v) key = some v := by
  induction m with
  | nil => simp [mapSet, mapGet]
  | cons p rest ih =>
    obtain ⟨k, w⟩ := p
    by_cases h : k = key
    · simp [mapSet, mapGet, h]
    · simp [mapSet, mapGet, h, ih]

theorem mapGet_set_ne (m : List (String × Value)) (key k2 : String) (v : Value)
    (h : k2 ≠ key) : mapGet (mapSet m key v) k2 = mapGet m k2 := by
  induction m with
  | nil => simp [mapSet, mapGet, Ne.symm h]
  | cons p rest ih =>
    obtain ⟨k, w⟩ := p
    by_cases hk : k = key
    · subst hk
      simp [mapSet, mapGet, Ne.symm h]
    · by_cases hk2 : k = k2
      · subst hk2
        simp [mapSet, mapGet, hk]
      · simp [mapSet, mapGet, hk, hk2, ih]

theorem mapHas_set_ne (m : List (String × Value)) (key k2 : String) (v : Value)
    (h : k2 ≠ key) : mapHas (mapSet m key v) k2 = mapHas m k2 := by
  unfold mapHas
  rw [mapGet_set_ne m key k2 v h]

theorem mapGet_delete_self (m : List (String × Value)) (key : String) :
    mapGet (mapDelete m key) key = none := by
  induction m with
  | nil => simp [mapDelete, mapGet]
  | cons p rest ih =>
    obtain ⟨k, w⟩ := p
    by_cases h : k = key
    · simpa [mapDelete, mapGet, h] using ih
    · simpa [mapDelete, mapGet, h] using ih

theorem mapDelete_cons (k : String) (w : Value) (rest : List (String × Value)) (key : String) :
    mapDelete ((k, w) :: rest) key
      = if k = key then mapDelete rest key else (k, w) :: mapDelete rest key := by
  by_cases h : k = key
  · simp [mapDelete, List.filter_cons, h]
  · simp [mapDelete, List.filter_cons, h]

theorem mapGet_delete_ne (m : List (String × Value)) (key k2 : String)
    (h : k2 ≠ key) : mapGet (mapDelete m key) k2 = mapGet m k2 := by
  induction m with
  | nil => rfl
  | cons p rest ih =>
    obtain ⟨k, w⟩ := p
    rw [mapDelete_cons]
    by_cases hk : k = key
    · subst hk
      simp [mapGet, Ne.symm h, ih]
    · simp [mapGet, hk, ih]

theorem mapSet_length_fresh (m : List (String × Value)) (key : String) (v : Value)
    (h : mapHas m key = false) : (mapSet m key v).length = m.length + 1 := by
  induction m with
  | nil => simp [mapSet]
  | cons p rest ih =>
    obtain ⟨k, w⟩ := p
    by_cases hk : k = key
    · subst hk
      simp [mapHas, mapGet] at h
    · have hrest : mapHas rest key = false := by
        simpa [mapHas, mapGet, hk] using h
      simp [mapSet, hk, ih hrest]

theorem isCanonical_spec (s : String) (h : isCanonical s = true) :
    s ≠ "" ∧ toLowerCaseJS s = s := by
  unfold isCanonical at h
  simp only [Bool.and_eq_true, bne_iff_ne, beq_iff_eq, ne_eq] at h
  exact ⟨h.1, h.2⟩

/-! Behaviour of the registry operations on canonical keys. -/

theorem Registry.add_fresh (r : Registry) (n : String) (v : Value)
    (hc : isCanonical n = true) (hv : truthy v = true)
    (hf : mapHas r.content n = false) :
    r.add (.vstr n) v = (.ok (), ⟨mapSet r.content n v⟩) := by
  obtain ⟨h1, h2⟩ := isCanonical_spec n hc
  have hn : truthy (.vstr n) = true := by simp [truthy, h1]
  simp [Registry.add, hn, hv, jsToString, Registry.hasKey, h2, hf]

theorem Registry.add_dup (r : Registry) (n : String) (v : Value)
    (hc : isCanonical n = true) (hv : truthy v = true)
    (hh : mapHas r.content n = true) :
    r.add (.vstr n) v
      = (.error (.syntaxError ("Item " ++ n ++ " already exists in registry! Consider using a different name.")), r) := by
  obtain ⟨h1, h2⟩ := isCanonical_spec n hc
  have hn : truthy (.vstr n) = true := by simp [truthy, h1]
  simp [Registry.add, hn, hv, jsToString, Registry.hasKey, h2, hh]

theorem Registry.add_absent_item (r : Registry) (name item : Value)
    (hi : truthy item = false) : r.add name item = (.ok (), r) := by
  by_cases hn : truthy name = true
  · simp [Registry.add, hn, hi]
  · simp [Registry.add, Bool.eq_false_iff.mpr hn]

theorem Registry.get_found (r : Registry) (n : String) (v : Value)
    (hc : isCanonical n = true) (hm : mapGet r.content n = some v) :
    r.get (.vstr n) = .ok v := by
  obtain ⟨h1, h2⟩ := isCanonical_spec n hc
  have hh : mapHas r.content n = true := by simp [mapHas, hm]
  simp [Registry.get, jsToString, Registry.hasKey, h2, hh, hm]

theorem Registry.get_missing (r : Registry) (n : String)
    (hc : isCanonical n = true) (hm : mapHas r.content n = false) :
    r.get (.vstr n)
      = .error (.referenceError ("Item " ++ n ++ " does not exist in registry! Consider checking your spelling.")) := by
  obtain ⟨h1, h2⟩ := isCanonical_spec n hc
  simp [Registry.get, jsToString, Registry.hasKey, h2, hm]

theorem Registry.alias_fresh (r : Registry) (n a : String) (v : Value)
    (hcn : isCanonical n = true) (hca : isCanonical a = true)
    (hv : truthy v = true)
    (hmem : mapGet r.content n = some v) (hfa : mapHas r.content a = false) :
    r.alias (.vstr n) (.vstr a) = (.ok (), ⟨mapSet r.content a v⟩) := by
  obtain ⟨h1, h2⟩ := isCanonical_spec n hcn
  have hh : r.hasKey n = true := by simp [Registry.hasKey, h2, mapHas, hmem]
  have hget : r.get (.vstr n) = .ok v := Registry.get_found r n v hcn hmem
  simp [Registry.alias, jsToString, h2, hh, hget,
    Registry.add_fresh r a v hca hv hfa]

/-- Full specification of a batch of fresh adds with distinct canonical
names and truthy values: it succeeds, binds each name to its value, and
leaves every other key untouched. -/
theorem addList_spec (pairs : List (String × Value)) :
    ∀ r0 : Registry,
      pairs.Pairwise (fun p q => p.1 ≠ q.1) →
      (∀ p ∈ pairs, isCanonical p.1 = true) →
      (∀ p ∈ pairs, truthy p.2 = true) →
      (∀ p ∈ pairs, mapHas r0.content p.1 = false) →
      ∃ rf, addList r0 pairs = .ok rf
        ∧ (∀ p ∈ pairs, mapGet rf.content p.1 = some p.2)
        ∧ (∀ k : String, (∀ p ∈ pairs, p.1 ≠ k) →
            mapGet rf.content k = mapGet r0.content k) := by
  induction pairs with
  | nil =>
    intro r0 _ _ _ _
    exact ⟨r0, rfl, by simp, fun k _ => rfl⟩
  | cons hd tl ih =>
    obtain ⟨n, v⟩ := hd
    intro r0 hdist hcanon hval hfresh
    have hc := hcanon (n, v) (List.mem_cons_self _ _)
    have hv := hval (n, v) (List.mem_cons_self _ _)
    have hf := hfresh (n, v) (List.mem_cons_self _ _)
    have hne : ∀ p ∈ tl, n ≠ p.1 := (List.pairwise_cons.mp hdist).1
    have htl := (List.pairwise_cons.mp hdist).2
    have hstep := Registry.add_fresh r0 n v hc hv hf
    have hfresh1 : ∀ p ∈ tl, mapHas (Registry.mk (mapSet r0.content n v)).content p.1 = false := by
      intro p hp
      show mapHas (mapSet r0.content n v) p.1 = false
      rw [mapHas_set_ne _ _ _ _ (Ne.symm (hne p hp))]
      exact hfresh p (List.mem_cons_of_mem _ hp)
    obtain ⟨rf, hres, hgets, hpres⟩ :=
      ih (Registry.mk (mapSet r0.content n v)) htl
        (fun p hp => hcanon p (List.mem_cons_of_mem _ hp))
        (fun p hp => hval p (List.mem_cons_of_mem _ hp))
        hfresh1
    refine ⟨rf, ?_, ?_, ?_⟩
    · simp only [addList, hstep]
      exact hres
    · intro p hp
      rcases List.mem_cons.mp hp with heq | hmem
      · subst heq
        have hkeep : mapGet rf.content n
            = mapGet (Registry.mk (mapSet r0.content n v)).content n :=
          hpres n (fun q hq => Ne.symm (hne q hq))
        rw [hkeep]
        exact mapGet_set_self r0.content n v
      · exact hgets p hmem
    · intro k hk
      have h1 : mapGet rf.content k
          = mapGet (Registry.mk (mapSet r0.content n v)).content k :=
        hpres k (fun p hp => hk p (List.mem_cons_of_mem _ hp))
      rw [h1]
      exact mapGet_set_ne r0.content n k v (Ne.symm (hk (n, v) (List.mem_cons_self _ _)))

/-- C1: for every registry and every finite batch of pairwise-distinct
canonical names, each added via `add` with a present (truthy — the code's
`if (!item) return` notion of non-null) value, a subsequent `get` on each
name returns exactly the value added under it, independently of the other
entries.  Freshness of the names in the starting registry is required,
since `add` refuses duplicates. -/
theorem c1_add_then_get_roundtrip (r0 : Registry) (pairs : List (String × Value))
    (hdist : pairs.Pairwise (fun p q => p.1 ≠ q.1))
    (hcanon : ∀ p ∈ pairs, isCanonical p.1 = true)
    (hval : ∀ p ∈ pairs, truthy p.2 = true)
    (hfresh : ∀ p ∈ pairs, mapHas r0.content p.1 = false) :
    ∃ rf, addList r0 pairs = .ok rf
      ∧ ∀ p ∈ pairs, rf.get (.vstr p.1) = .ok p.2 := by
  obtain ⟨rf, hres, hgets, _⟩ := addList_spec pairs r0 hdist hcanon hval hfresh
  exact ⟨rf, hres,
    fun p hp => Registry.get_found rf p.1 p.2 (hcanon p hp) (hgets p hp)⟩

/-- Witness for C1: two distinct names added to the empty registry both
read back their own value. -/
theorem c1_witness :
    ∃ rf, addList Registry.empty [(("a"), .vnum 1), (("b"), .vnum 2)] = .ok rf
      ∧ ∀ p ∈ [(("a"), Value.vnum 1), (("b"), Value.vnum 2)],
          rf.get (.vstr p.1) = .ok p.2 :=
  c1_add_then_get_roundtrip Registry.empty
    [(("a"), .vnum 1), (("b"), .vnum 2)]
    (by decide) (by decide) (by decide) (by decide)

/-- `add` with a falsy name is a silent no-op (`if (!name) return`). -/
theorem Registry.add_falsy_name (r : Registry) (name item : Value)
    (hn : truthy name = false) : r.add name item = (.ok (), r) := by
  simp [Registry.add, hn]

/-- C2 counterexample: with `v2 = null`, `add("a", 1)` then `add("a", null)`
does not fail with the duplicate-name error — it silently returns, leaving
the registry unchanged.  This refutes "add(n, v) followed by add(n, v2)
always fails with DuplicateNameError" for arbitrary `v2`. -/
theorem c2_counterexample :
    ((Registry.empty.add (.vstr ("a")) (.vnum 1)).2.add (.vstr ("a")) Value.vnull)
      = (.ok (), (Registry.empty.add (.vstr ("a")) (.vnum 1)).2) := rfl

/-- C2 (amended): after `add(n, v)` with canonical fresh `n` and present
`v`, a second `add(n, v2)` fails with the duplicate-name `SyntaxError` when
`v2` is present (truthy), but silently does nothing when `v2` is absent
(falsy); in both cases the registry is unchanged and `get(n)` still
returns `v` — no implicit overwrite. -/
theorem c2_duplicate_add_guarded (r : Registry) (n : String) (v v2 : Value)
    (hc : isCanonical n = true) (hv : truthy v = true)
    (hf : mapHas r.content n = false) :
    (truthy v2 = true →
      (r.add (.vstr n) v).2.add (.vstr n) v2
        = (.error (.syntaxError ("Item " ++ n ++ " already exists in registry! Consider using a different name.")),
           (r.add (.vstr n) v).2))
    ∧ (truthy v2 = false →
      (r.add (.vstr n) v).2.add (.vstr n) v2 = (.ok (), (r.add (.vstr n) v).2))
    ∧ (r.add (.vstr n) v).2.get (.vstr n) = .ok v := by
  have hstep := Registry.add_fresh r n v hc hv hf
  have hr1 : (r.add (.vstr n) v).2 = Registry.mk (mapSet r.content n v) := by
    rw [hstep]
  have hhas1 : mapHas (mapSet r.content n v) n = true := by
    simp [mapHas, mapGet_set_self]
  refine ⟨?_, ?_, ?_⟩
  · intro h2
    rw [hr1]
    exact Registry.add_dup _ n v2 hc h2 hhas1
  · intro h2
    exact Registry.add_absent_item _ _ _ h2
  · rw [hr1]
    exact Registry.get_found _ n v hc (mapGet_set_self _ _ _)

/-- Witness for C2 (amended) at a concrete input. -/
theorem c2_witness :
    (truthy (Value.vnum 2) = true →
      (Registry.empty.add (.vstr ("a")) (.vnum 1)).2.add (.vstr ("a")) (.vnum 2)
        = (.error (.syntaxError ("Item " ++ ("a") ++ " already exists in registry! Consider using a different name.")),
           (Registry.empty.add (.vstr ("a")) (.vnum 1)).2))
    ∧ (truthy (Value.vnum 2) = false →
      (Registry.empty.add (.vstr ("a")) (.vnum 1)).2.add (.vstr ("a")) (.vnum 2)
        = (.ok (), (Registry.empty.add (.vstr ("a")) (.vnum 1)).2))
    ∧ (Registry.empty.add (.vstr ("a")) (.vnum 1)).2.get (.vstr ("a")) = .ok (.vnum 1) :=
  c2_duplicate_add_guarded Registry.empty ("a") (.vnum 1) (.vnum 2)
    (by decide) rfl rfl

/-- C3 counterexample: with `n` concrete, `alias(n, "a")` followed by
`alias("a", "b")` succeeds — it does not raise `NotFoundError`.  There is
no alias table: `alias` installs an ordinary second entry, so the alias
name itself is a concrete entry and alias chains are possible. -/
theorem c3_counterexample :
    (((Registry.empty.add (.vstr ("n")) (.vnum 1)).2.alias (.vstr ("n")) (.vstr ("a"))).2.alias
      (.vstr ("a")) (.vstr ("b"))).1 = .ok () := rfl

/-- C3 (amended): `alias` copies the entry under a new primary name, so
after `alias(n, "a")` the name `"a"` is itself a concrete entry and
`alias("a", "b")` succeeds, binding `"b"` to the same value. -/
theorem c3_alias_of_alias_succeeds (r : Registry) (n a b : String) (v : Value)
    (hcn : isCanonical n = true) (hca : isCanonical a = true)
    (hcb : isCanonical b = true) (hv : truthy v = true)
    (hmem : mapGet r.content n = some v)
    (hfa : mapHas r.content a = false) (hfb : mapHas r.content b = false)
    (hba : b ≠ a) :
    ∃ r1 r2 : Registry,
      r.alias (.vstr n) (.vstr a) = (.ok (), r1)
      ∧ r1.alias (.vstr a) (.vstr b) = (.ok (), r2)
      ∧ r2.get (.vstr b) = .ok v := by
  have h1 := Registry.alias_fresh r n a v hcn hca hv hmem hfa
  have hmem1 : mapGet (Registry.mk (mapSet r.content a v)).content a = some v :=
    mapGet_set_self _ _ _
  have hfb1 : mapHas (Registry.mk (mapSet r.content a v)).content b = false := by
    show mapHas (mapSet r.content a v) b = false
    rw [mapHas_set_ne _ _ _ _ hba]
    exact hfb
  have h2 := Registry.alias_fresh (Registry.mk (mapSet r.content a v)) a b v hca hcb hv hmem1 hfb1
  refine ⟨_, _, h1, h2, ?_⟩
  exact Registry.get_found _ b v hcb (mapGet_set_self _ _ _)

/-- Witness for C3 (amended) at a concrete input. -/
theorem c3_witness :
    ∃ r1 r2 : Registry,
      (Registry.mk [(("n"), Value.vnum 1)]).alias (.vstr ("n")) (.vstr ("a")) = (.ok (), r1)
      ∧ r1.alias (.vstr ("a")) (.vstr ("b")) = (.ok (), r2)
      ∧ r2.get (.vstr ("b")) = .ok (.vnum 1) :=
  c3_alias_of_alias_succeeds (Registry.mk [(("n"), Value.vnum 1)]) ("n") ("a") ("b") (.vnum 1)
    (by decide) (by decide) (by decide) rfl rfl rfl rfl (by decide)

/-- C4 counterexample: `alias(n, "a")` grows `size` from 1 to 2 — aliases
are stored as primary entries and are counted by `size`. -/
theorem c4_counterexample :
    ((Registry.empty.add (.vstr ("n")) (.vnum 1)).2.alias (.vstr ("n")) (.vstr ("a"))).2.size = 2
    ∧ (Registry.empty.add (.vstr ("n")) (.vnum 1)).2.size = 1 := ⟨rfl, rfl⟩

/-- C4 (amended): `size` counts every entry of the single table, aliases
included: a successful `alias(n, a)` onto a fresh valid alias name
increments `size` by one. -/
theorem c4_alias_increments_size (r : Registry) (n a : String) (v : Value)
    (hcn : isCanonical n = true) (hca : isCanonical a = true)
    (hv : truthy v = true)
    (hmem : mapGet r.content n = some v) (hfa : mapHas r.content a = false) :
    ((r.alias (.vstr n) (.vstr a)).2).size = r.size + 1 := by
  rw [Registry.alias_fresh r n a v hcn hca hv hmem hfa]
  show (mapSet r.content a v).length = r.content.length + 1
  exact mapSet_length_fresh _ _ _ hfa

/-- Witness for C4 (amended) at a concrete input. -/
theorem c4_witness :
    (((Registry.mk [(("n"), Value.vnum 1)]).alias (.vstr ("n")) (.vstr ("a"))).2).size
      = (Registry.mk [(("n"), Value.vnum 1)]).size + 1 :=
  c4_alias_increments_size (Registry.mk [(("n"), Value.vnum 1)]) ("n") ("a") (.vnum 1)
    (by decide) (by decide) rfl rfl rfl

/-- C5 counterexample: `add("a", null)` on the empty registry neither
throws nor records anything — it silently does nothing, contradicting the
claimed `NullItemError`. -/
theorem c5_counterexample :
    Registry.empty.add (.vstr ("a")) Value.vnull = (.ok (), Registry.empty) := rfl

/-- C5 (amended): `add` with an absent (falsy) item silently returns with
the registry unchanged (`if (!item) return`); no error is raised. -/
theorem c5_add_null_item_silent (r : Registry) (name item : Value)
    (hi : truthy item = false) :
    r.add name item = (.ok (), r) :=
  Registry.add_absent_item r name item hi

/-- Witness for C5 (amended) at a concrete input. -/
theorem c5_witness :
    (Registry.mk [(("n"), Value.vnum 1)]).add (.vstr ("b")) Value.vnull
      = (.ok (), Registry.mk [(("n"), Value.vnum 1)]) :=
  c5_add_null_item_silent (Registry.mk [(("n"), Value.vnum 1)]) (.vstr ("b")) Value.vnull rfl

/-- The clone-with-fallback step of `#construct` always produces the
original pure value: a successful `structuredClone` is a deep copy (equal
as a value) and a failed one falls back to the object itself. -/
theorem structuredClone_fallback (v : Value) :
    (match structuredCloneJS v with
      | some c => c
      | none => v) = v := by
  cases h : cloneable v <;> simp [structuredCloneJS, h]

/-- If some descriptor field names a function-valued member of the
instance, the clash scan throws the property-clash `SyntaxError` (for the
first such field in iteration order). -/
theorem checkClashList_clash (ds instF : List (String × Value)) (p : String) (v f : Value)
    (hp : (p, v) ∈ ds) (hf : mapGet instF p = some f) (hfn : isFunctionJS f = true) :
    ∃ q, checkClashList ds (.vobj instF)
      = .error (.syntaxError ("Property \x27" ++ q ++ "\x27 clashes with a class method!")) := by
  induction ds with
  | nil => cases hp
  | cons hd tl ih =>
    obtain ⟨k, w⟩ := hd
    by_cases hhas : hasProp (.vobj instF) k = true
    · by_cases hfun : isFunctionJS (getProp (.vobj instF) k) = true
      · exact ⟨k, by simp [checkClashList, hhas, hfun]⟩
      · rcases List.mem_cons.mp hp with heq | hmem
        · exfalso
          apply hfun
          have hkp : k = p := by
            have := congrArg Prod.fst heq
            exact this.symm
          subst hkp
          simp [getProp, hf, hfn]
        · obtain ⟨q, hq⟩ := ih hmem
          exact ⟨q, by simp [checkClashList, hhas, Bool.eq_false_iff.mpr hfun, hq]⟩
    · rcases List.mem_cons.mp hp with heq | hmem
      · exfalso
        apply hhas
        have hkp : k = p := by
          have := congrArg Prod.fst heq
          exact this.symm
        subst hkp
        simp [hasProp, mapHas, hf]
      · obtain ⟨q, hq⟩ := ih hmem
        exact ⟨q, by simp [checkClashList, Bool.eq_false_iff.mpr hhas, hq]⟩

/-- C6: when the descriptor resolves to a type and some descriptor field
names a function-valued member of a fresh instance of that type,
`#construct` fails with the property-clash `SyntaxError` and returns no
instance (the error aborts before the merge); the same early-abort shape
covers failures of type resolution, which stop construction immediately. -/
theorem c6_property_clash_aborts (object : Value) (registry : Registry) (defaultType : Value)
    (ds instF : List (String × Value)) (p : String) (v f : Value)
    (hobj : object = .vobj ds)
    (hres : resolveType object registry defaultType = .ok (.vctor instF))
    (hp : (p, v) ∈ ds)
    (hf : mapGet instF p = some f)
    (hfn : isFunctionJS f = true) :
    ∃ q, constructImpl object registry defaultType
      = .error (.syntaxError ("Property \x27" ++ q ++ "\x27 clashes with a class method!")) := by
  subst hobj
  obtain ⟨q, hq⟩ := checkClashList_clash ds instF p v f hp hf hfn
  refine ⟨q, ?_⟩
  simp [constructImpl, truthy, Bool.not_true, if_false, hres, instantiateType,
    structuredClone_fallback, checkForClashingFunctions, hq]

/-- Witness for C6 at a concrete input: descriptor field `shoot` clashes
with the method `shoot` of the resolved type `t`. -/
theorem c6_witness :
    ∃ q, constructImpl (.vobj [(("type"), .vstr ("t")), (("shoot"), .vnum 5)])
      (Registry.mk [(("t"), .vctor [(("shoot"), .vfun 0)])]) (.vctor [])
      = .error (.syntaxError ("Property \x27" ++ q ++ "\x27 clashes with a class method!")) :=
  c6_property_clash_aborts
    (.vobj [(("type"), .vstr ("t")), (("shoot"), .vnum 5)])
    (Registry.mk [(("t"), .vctor [(("shoot"), .vfun 0)])]) (.vctor [])
    [(("type"), .vstr ("t")), (("shoot"), .vnum 5)] [(("shoot"), .vfun 0)]
    ("shoot") (.vnum 5) (.vfun 0)
    rfl rfl (List.mem_cons_of_mem _ (List.mem_cons_self _ _)) rfl rfl

/-- C7 counterexample: `get` performs no stamping.  An object value stored
under `"a"` is returned exactly as stored, with no read-back field holding
the canonical name — refuting "get stamps the canonical name onto the
returned value whenever the value supports it". -/
theorem c7_counterexample :
    ((Registry.empty.add (.vstr ("a")) (.vobj [])).2.get (.vstr ("a")) = .ok (.vobj []))
    ∧ stampedWithName (.vobj []) ("a") = false := ⟨rfl, rfl⟩

/-- C7 (amended): on a primary hit `get` returns the stored value
completely unchanged; no name is stamped onto it and nothing is logged. -/
theorem c7_get_returns_value_unchanged (r : Registry) (n : String) (v : Value)
    (hc : isCanonical n = true) (hm : mapGet r.content n = some v) :
    r.get (.vstr n) = .ok v :=
  Registry.get_found r n v hc hm

/-- Witness for C7 (amended) at a concrete input. -/
theorem c7_witness :
    (Registry.mk [(("a"), Value.vobj [])]).get (.vstr ("a")) = .ok (.vobj []) :=
  c7_get_returns_value_unchanged (Registry.mk [(("a"), Value.vobj [])]) ("a") (.vobj [])
    (by decide) rfl

/-- C8 counterexample: `has(null)` throws a `TypeError` (from
`null.toString()`), refuting "has applied to empty or absent input returns
false and never throws". -/
theorem c8_counterexample :
    Registry.empty.has Value.vnull
      = .error (.typeError ("Cannot read properties of null (reading \x27toString\x27)")) := rfl

/-- C8 (amended): for any registry whose table holds no empty key (true of
every registry built through `add`, which rejects falsy names), `has("")`
returns false without throwing; but `has(null)` and `has(undefined)` throw
`TypeError` when `name.toString()` dereferences a nullish receiver. -/
theorem c8_has_empty_false_nullish_throws (r : Registry)
    (hwf : mapHas r.content ("") = false) :
    r.has (.vstr ("")) = .ok false
    ∧ r.has Value.vnull
        = .error (.typeError ("Cannot read properties of null (reading \x27toString\x27)"))
    ∧ r.has Value.vundefined
        = .error (.typeError ("Cannot read properties of undefined (reading \x27toString\x27)")) := by
  refine ⟨?_, rfl, rfl⟩
  simp [Registry.has, jsToString, Registry.hasKey, show toLowerCaseJS ("") = ("") from rfl, hwf]

/-- Witness for C8 (amended) at a concrete input. -/
theorem c8_witness :
    (Registry.mk [(("n"), Value.vnum 1)]).has (.vstr ("")) = .ok false
    ∧ (Registry.mk [(("n"), Value.vnum 1)]).has Value.vnull
        = .error (.typeError ("Cannot read properties of null (reading \x27toString\x27)"))
    ∧ (Registry.mk [(("n"), Value.vnum 1)]).has Value.vundefined
        = .error (.typeError ("Cannot read properties of undefined (reading \x27toString\x27)")) :=
  c8_has_empty_false_nullish_throws (Registry.mk [(("n"), Value.vnum 1)]) rfl

/-- C9 counterexample: in a registry holding the *same* value under both
names — reachable through the public API by adding one value twice or by
`alias` — `rename("a", "b")` raises the duplicate error with `"a"`'s entry
already deleted, yet the value formerly stored under `"a"` is still
reachable under `"b"`.  This refutes "the value formerly stored under name
is no longer reachable under either key" as a consequence of the
duplicate failure alone. -/
theorem c9_counterexample :
    ((Registry.mk [(("a"), Value.vnum 7), (("b"), Value.vnum 7)]).rename
        (.vstr ("a")) (.vstr ("b"))).1
      = .error (.syntaxError ("Item b already exists in registry! Consider using a different name."))
    ∧ ((Registry.mk [(("a"), Value.vnum 7), (("b"), Value.vnum 7)]).rename
        (.vstr ("a")) (.vstr ("b"))).2.get (.vstr ("b"))
      = .ok (.vnum 7) := ⟨rfl, rfl⟩

/-- C9 (amended): `rename` is not atomic on duplicate failure.  When both
canonical names are present as distinct entries (the stored value under
`name` present/truthy, as `add` guarantees), `rename(name, newName)`
deletes the old binding first and only then hits `add`'s duplicate check,
so the thrown duplicate `SyntaxError` leaves a state in which `get(name)`
fails and `get(newName)` returns the value already stored under `newName`
— the entry formerly under `name` is gone from `name`, and its value
survives only when it coincides with `newName`'s value. -/
theorem c9_rename_duplicate_deletes_first (r : Registry) (n n2 : String) (v1 v2 : Value)
    (hc1 : isCanonical n = true) (hc2 : isCanonical n2 = true) (hne : n ≠ n2)
    (hm1 : mapGet r.content n = some v1) (hm2 : mapGet r.content n2 = some v2)
    (hv1 : truthy v1 = true) :
    r.rename (.vstr n) (.vstr n2)
        = (.error (.syntaxError ("Item " ++ n2 ++ " already exists in registry! Consider using a different name.")),
           Registry.mk (mapDelete r.content n))
    ∧ (Registry.mk (mapDelete r.content n)).get (.vstr n)
        = .error (.referenceError ("Item " ++ n ++ " does not exist in registry! Consider checking your spelling."))
    ∧ (Registry.mk (mapDelete r.content n)).get (.vstr n2) = .ok v2 := by
  obtain ⟨h1, h2⟩ := isCanonical_spec n hc1
  have hhk : r.hasKey n = true := by
    simp [Registry.hasKey, h2, mapHas, hm1]
  have hget : r.get (.vstr n) = .ok v1 := Registry.get_found r n v1 hc1 hm1
  have hd2 : mapGet (mapDelete r.content n) n2 = some v2 := by
    rw [mapGet_delete_ne _ _ _ (Ne.symm hne)]
    exact hm2
  have hdup : (Registry.mk (mapDelete r.content n)).add (.vstr n2) v1
      = (.error (.syntaxError ("Item " ++ n2 ++ " already exists in registry! Consider using a different name.")),
         Registry.mk (mapDelete r.content n)) := by
    apply Registry.add_dup _ n2 v1 hc2 hv1
    simp [mapHas, hd2]
  refine ⟨?_, ?_, ?_⟩
  · simp [Registry.rename, jsToString, h2, hhk, hget, hdup]
  · apply Registry.get_missing _ n hc1
    simp [mapHas, mapGet_delete_self]
  · exact Registry.get_found _ n2 v2 hc2 hd2

/-- Witness for C9 (amended) at a concrete input: renaming `"a"` onto the
occupied name `"b"` raises the duplicate error with `"a"`'s entry already
gone and `"b"` keeping its own value. -/
theorem c9_witness :
    (Registry.mk [(("a"), Value.vnum 1), (("b"), Value.vnum 2)]).rename (.vstr ("a")) (.vstr ("b"))
        = (.error (.syntaxError ("Item " ++ ("b") ++ " already exists in registry! Consider using a different name.")),
           Registry.mk (mapDelete (Registry.mk [(("a"), Value.vnum 1), (("b"), Value.vnum 2)]).content ("a")))
    ∧ (Registry.mk (mapDelete (Registry.mk [(("a"), Value.vnum 1), (("b"), Value.vnum 2)]).content ("a"))).get (.vstr ("a"))
        = .error (.referenceError ("Item " ++ ("a") ++ " does not exist in registry! Consider checking your spelling."))
    ∧ (Registry.mk (mapDelete (Registry.mk [(("a"), Value.vnum 1), (("b"), Value.vnum 2)]).content ("a"))).get (.vstr ("b"))
        = .ok (.vnum 2) :=
  c9_rename_duplicate_deletes_first
    (Registry.mk [(("a"), Value.vnum 1), (("b"), Value.vnum 2)])
    ("a") ("b") (.vnum 1) (.vnum 2)
    (by decide) (by decide) (by decide) rfl rfl rfl

/-- C10: `rename(n, newName)` with a falsy `newName` completes without any
error and silently deletes the entry: the old binding is removed, and the
trailing `add(newName, current)` is a silent no-op on a falsy name, so
afterwards `get(n)` fails and nothing is stored under any new key. -/
theorem c10_rename_falsy_silently_deletes (r : Registry) (n : String) (newName v : Value)
    (hc : isCanonical n = true) (hm : mapGet r.content n = some v)
    (hnew : truthy newName = false) :
    r.rename (.vstr n) newName = (.ok (), Registry.mk (mapDelete r.content n))
    ∧ (Registry.mk (mapDelete r.content n)).get (.vstr n)
        = .error (.referenceError ("Item " ++ n ++ " does not exist in registry! Consider checking your spelling.")) := by
  obtain ⟨h1, h2⟩ := isCanonical_spec n hc
  have hhk : r.hasKey n = true := by
    simp [Registry.hasKey, h2, mapHas, hm]
  have hget : r.get (.vstr n) = .ok v := Registry.get_found r n v hc hm
  have hadd : (Registry.mk (mapDelete r.content n)).add newName v
      = (.ok (), Registry.mk (mapDelete r.content n)) :=
    Registry.add_falsy_name _ newName v hnew
  refine ⟨?_, ?_⟩
  · simp [Registry.rename, jsToString, h2, hhk, hget, hadd]
  · apply Registry.get_missing _ n hc
    simp [mapHas, mapGet_delete_self]

/-- Witness for C10 at a concrete input: renaming `"a"` to the empty
string silently deletes the entry. -/
theorem c10_witness :
    (Registry.mk [(("a"), Value.vnum 1)]).rename (.vstr ("a")) (.vstr (""))
        = (.ok (), Registry.mk (mapDelete (Registry.mk [(("a"), Value.vnum 1)]).content ("a")))
    ∧ (Registry.mk (mapDelete (Registry.mk [(("a"), Value.vnum 1)]).content ("a"))).get (.vstr ("a"))
        = .error (.referenceError ("Item " ++ ("a") ++ " does not exist in registry! Consider checking your spelling.")) :=
  c10_rename_falsy_silently_deletes (Registry.mk [(("a"), Value.vnum 1)])
    ("a") (.vstr ("")) (.vnum 1) (by decide) rfl rfl
